import Mathlib

/-!
Shallow embedding of the grail-meter frontend (a React single-page app) for
checking its natural-language specification.  The repository contains several
near-duplicate iterations of the same top-level `App` component; the ones the
claims cite are embedded here:

* `src/frontend/src/App.jsx`            — multi-image `App` (namespace `AppJsx`)
* `src/unnamed/part_000`                — chart.js iteration (namespace `Part000`)
* `src/unnamed/part_001`                — single-image iteration (namespace `Part001`)
* `src/unnamed/part_003`                — iteration with response-text errors
                                          (namespace `Part003`)
* `src/frontend/src/components/TrendGraph.jsx` — three `TrendGraph` iterations

Browser values are modelled as plain data: a `File` is an id plus its MIME
type string, an object URL is a tag carrying the file it was created for, a
`fetch` outcome is either a network rejection or a response with an `ok` flag,
a body text and the result of attempting `JSON.parse` on that body.  Each
event handler becomes a pure function from state (plus the outcome of the
external calls it awaits) to state, together with the list of network
requests it issued and the list of object URLs it revoked.
-/

/-- A browser `File` value: an identifier plus its MIME `type` string. -/
structure JsFile where
  id : Nat
  ftype : String
deriving DecidableEq, Repr

/-- An object URL as returned by `URL.createObjectURL`: a tag recording which
file it was created for. -/
structure ObjUrl where
  file : JsFile
deriving DecidableEq, Repr

/-- `URL.createObjectURL(file)`. -/
def createObjectURL (f : JsFile) : ObjUrl := ⟨f⟩

/-- One `formData.append(field, file)` entry of a multipart body. -/
structure FormPart where
  field : String
  file : JsFile
deriving DecidableEq, Repr

/-- A network request issued by `fetch(url, { method, body: formData })`. -/
structure Request where
  url : String
  method : String
  form : List FormPart
deriving DecidableEq, Repr

/-- Outcome of an awaited `fetch` of the analyze endpoint.  `netFail` is a
rejected promise (network failure); `resp` carries the HTTP `ok` flag, the
body text, the result of attempting to parse that text as JSON (`none` when
the body is not valid JSON), and the message of the parse error when parsing
fails. -/
inductive FetchOutcome (α : Type) where
  | netFail (msg : String)
  | resp (ok : Bool) (text : String) (parsed : Option α) (parseErrMsg : String)
deriving DecidableEq, Repr

/-- JavaScript `a || b` on strings: the empty string is falsy. -/
def jsOrStr (a b : String) : String := if a = "" then b else a

/-- JavaScript `a || b` where `a` is a possibly-absent string (`undefined` and
`""` are falsy). -/
def jsOrOptStr (a : Option String) (b : Option String) : Option String :=
  match a with
  | some s => if s = "" then b else some s
  | none => b

/-- JavaScript `xs.filter((_, i) => p i x)` — filter with the element index,
counting from `k`. -/
def filterIdxFrom (p : Nat → α → Bool) (k : Nat) : List α → List α
  | [] => []
  | x :: xs => if p k x then x :: filterIdxFrom p (k + 1) xs else filterIdxFrom p (k + 1) xs

/-- JavaScript `xs.filter((_, i) => p i x)`. -/
def jsFilterIdx (p : Nat → α → Bool) (xs : List α) : List α := filterIdxFrom p 0 xs

namespace AppJsx

/-- The backend URL that `App.jsx` passes to `fetch`. -/
def analyzeUrl : String := "https://grail-meter-production.up.railway.app/analyze"

/-- In `App.jsx` the parsed analysis result is consumed opaquely (it is stored
and rendered, never transformed), so its JSON payload is left abstract. -/
abbrev ResultA := Nat

/-- The `useState` cells of the `App` component in `src/frontend/src/App.jsx`. -/
structure AppState where
  selectedImages : List JsFile
  imageUrls : List ObjUrl
  currentImageIndex : Nat
  loading : Bool
  error : Option String
  analysisResult : Option ResultA
  showCamera : Bool
deriving DecidableEq, Repr

/-- The initial state of the component: every list empty, index 0, no error,
no result, camera hidden. -/
def initState : AppState :=
  { selectedImages := [], imageUrls := [], currentImageIndex := 0,
    loading := false, error := none, analysisResult := none, showCamera := false }

/-- `handleImageChange(files)` (App.jsx 155–162): when the dropzone delivers a
non-empty file list, append the files to `selectedImages` and their freshly
created object URLs to `imageUrls`. -/
def handleImageChange (st : AppState) (files : List JsFile) : AppState :=
  if files.length > 0 then
    { st with
      selectedImages := st.selectedImages ++ files,
      imageUrls := st.imageUrls ++ files.map createObjectURL }
  else st

/-- `handleRemoveImage(index)` (App.jsx 164–173): filter position `index` out
of both lists, revoke `imageUrls[index]`, and clamp `currentImageIndex` to
`Math.max(0, newImages.length - 1)` when it falls off the end.  The second
component is the list of object URLs passed to `URL.revokeObjectURL`. -/
def handleRemoveImage (st : AppState) (index : Nat) : AppState × List ObjUrl :=
  let newImages := jsFilterIdx (fun i _ => i != index) st.selectedImages
  let newUrls := jsFilterIdx (fun i _ => i != index) st.imageUrls
  let revoked := match st.imageUrls.get? index with
    | some u => [u]
    | none => []
  let idx := if st.currentImageIndex ≥ newImages.length
    then newImages.length - 1
    else st.currentImageIndex
  ({ st with selectedImages := newImages, imageUrls := newUrls,
             currentImageIndex := idx }, revoked)

/-- The fixed error string of the catch block in `analyzeImages` (App.jsx 262). -/
def analyzeErrMsg : String := "Error analyzing image. Please try again."

/-- `analyzeImages(files)` (App.jsx 239–266): build a form with every file
appended under the field `files`, POST it to the analyze endpoint, store the
parsed JSON on success, and on a non-ok status, an unparsable body or a
network failure set the one fixed error string.  `finally` clears `loading`. -/
def analyzeImages (st : AppState) (files : List JsFile)
    (out : FetchOutcome ResultA) : AppState × List Request :=
  let st1 := { st with loading := true, error := none }
  let req : Request :=
    { url := analyzeUrl, method := "POST",
      form := files.map (fun f => { field := "files", file := f }) }
  match out with
  | .netFail _ =>
      ({ st1 with error := some analyzeErrMsg, loading := false }, [req])
  | .resp ok _ parsed _ =>
      if ok then
        match parsed with
        | some r => ({ st1 with analysisResult := some r, loading := false }, [req])
        | none => ({ st1 with error := some analyzeErrMsg, loading := false }, [req])
      else
        ({ st1 with error := some analyzeErrMsg, loading := false }, [req])

/-- The empty-selection error string (App.jsx 177). -/
def emptySelMsg : String := "Please select at least one image to analyze"

/-- `handleAnalyzeImages` (App.jsx 175–188): with no selected image, set the
empty-selection error and return without fetching; otherwise set
`loading`/clear `error` and delegate to `analyzeImages` (whose internal catch
means the surrounding catch never fires), then clear `loading`. -/
def handleAnalyzeImages (st : AppState) (out : FetchOutcome ResultA) :
    AppState × List Request :=
  if st.selectedImages.length = 0 then
    ({ st with error := some emptySelMsg }, [])
  else
    let st1 := { st with loading := true, error := none }
    let r := analyzeImages st1 st.selectedImages out
    ({ r.1 with loading := false }, r.2)

/-- The camera-access error string (App.jsx 200). -/
def camErrMsg : String := "Unable to access camera. Please check permissions."

/-- Outcome of `navigator.mediaDevices.getUserMedia` / canvas capture. -/
inductive CamOutcome where
  | ok
  | fail
deriving DecidableEq, Repr

/-- `startCamera` (App.jsx 190–202): show the camera view, or on a rejected
`getUserMedia` set the camera-access error. -/
def startCamera (st : AppState) (out : CamOutcome) : AppState :=
  match out with
  | .ok => { st with showCamera := true }
  | .fail => { st with error := some camErrMsg }

/-- `stopCamera` (App.jsx 204–210). -/
def stopCamera (st : AppState) : AppState := { st with showCamera := false }

/-- The capture-failure error string (App.jsx 227). -/
def captureErrMsg : String := "Failed to capture image. Please try again."

/-- `captureImage` (App.jsx 212–229): on success append the captured file and
its object URL and leave the camera view; on failure set the capture error. -/
def captureImage (st : AppState) (out : CamOutcome) (f : JsFile) : AppState :=
  match out with
  | .ok =>
      let st1 := { st with
        selectedImages := st.selectedImages ++ [f],
        imageUrls := st.imageUrls ++ [createObjectURL f] }
      stopCamera st1
  | .fail => { st with error := some captureErrMsg }

/-- `handleNextImage` (App.jsx 231–233): advance the index modulo the URL list
length. -/
def handleNextImage (st : AppState) : AppState :=
  { st with currentImageIndex := (st.currentImageIndex + 1) % st.imageUrls.length }

/-- `handlePrevImage` (App.jsx 235–237): step the index back modulo the URL
list length (`(prev - 1 + length) % length`). -/
def handlePrevImage (st : AppState) : AppState :=
  { st with currentImageIndex :=
      (st.currentImageIndex + st.imageUrls.length - 1) % st.imageUrls.length }

/-- The dead-code error string of the catch in `handleAnalyzeImages` (App.jsx 185). -/
def analyzeCatchMsg : String := "Failed to analyze images. Please try again."

/-- The user events the `App.jsx` component reacts to, with the outcomes of
the external calls each handler awaits. -/
inductive Ev where
  | imageChange (files : List JsFile)
  | removeImage (index : Nat)
  | analyze (out : FetchOutcome ResultA)
  | cameraStart (out : CamOutcome)
  | cameraStop
  | capture (out : CamOutcome) (f : JsFile)
  | nextImage
  | prevImage

/-- The effects of one handler invocation. -/
structure StepOut where
  state : AppState
  requests : List Request
  revoked : List ObjUrl
deriving Repr

/-- Dispatch one event to its `App.jsx` handler. -/
def stepFn (st : AppState) : Ev → StepOut
  | .imageChange files => ⟨handleImageChange st files, [], []⟩
  | .removeImage i =>
      let r := handleRemoveImage st i
      ⟨r.1, [], r.2⟩
  | .analyze out =>
      let r := handleAnalyzeImages st out
      ⟨r.1, r.2, []⟩
  | .cameraStart out => ⟨startCamera st out, [], []⟩
  | .cameraStop => ⟨stopCamera st, [], []⟩
  | .capture out f => ⟨captureImage st out f, [], []⟩
  | .nextImage => ⟨handleNextImage st, [], []⟩
  | .prevImage => ⟨handlePrevImage st, [], []⟩

/-- Whether the UI can fire the event in the given state: the previous/next
arrows are only rendered when more than one preview URL exists
(App.jsx 418 and 427). -/
def evGuard (st : AppState) : Ev → Prop
  | .nextImage => 1 < st.imageUrls.length
  | .prevImage => 1 < st.imageUrls.length
  | _ => True

/-- States the component can actually be in: the initial state and anything a
guarded handler invocation produces from a reachable state. -/
inductive Reachable : AppState → Prop where
  | init : Reachable initState
  | step {st : AppState} (ev : Ev) : Reachable st → evGuard st ev →
      Reachable (stepFn st ev).state

end AppJsx

/-- One point of a backend `trend_data` time series.  Each JSON field is
`none` when absent or not of the expected primitive type (`interest` and
`volume` are `some` exactly when the JS value is a number). -/
structure TrendPoint where
  date : Option String
  month : Option String
  interest : Option Int
  volume : Option Int
deriving DecidableEq, Repr

/-- The value of a `trendData` prop / `trend_data` response field as the
components receive it: `null`, `undefined` (absent), some non-array value, or
an actual array of points. -/
inductive TrendData where
  | nullVal
  | undef
  | notArray
  | arr (xs : List TrendPoint)
deriving DecidableEq, Repr

/-- The guard `!trendData || !Array.isArray(trendData) || trendData.length === 0`
shared by the guarded `TrendGraph` iterations. -/
def TrendData.isEmptyish : TrendData → Bool
  | .arr (_ :: _) => false
  | _ => true

/-- The JavaScript array spread `[...xs]`: a fresh array with the same
elements, so an in-place sort of the copy leaves the original untouched. -/
def jsSpread (xs : List α) : List α := xs

namespace TrendGraphJsx

/-- A point of the `formattedData` of the first iteration. -/
structure Fmt1 where
  month : Option String
  interest : Int
deriving DecidableEq, Repr

/-- Per-point normalization of the first iteration (TrendGraph.jsx 39–43):
`month` is `item.date || item.month` and `interest` is the numeric
`interest`, else the numeric `volume`, else `0`. -/
def fmt1 (item : TrendPoint) : Fmt1 :=
  { month := jsOrOptStr item.date item.month,
    interest :=
      match item.interest with
      | some n => n
      | none =>
        match item.volume with
        | some v => v
        | none => 0 }

/-- First `TrendGraph` iteration (TrendGraph.jsx 13–97): `none` is the
"No trend data available" placeholder, `some data` the chart over the
normalized copy. -/
def trendGraph1 (trendData : TrendData) : Option (List Fmt1) :=
  match trendData with
  | .arr (x :: xs) => some ((x :: xs).map fmt1)
  | _ => none

/-- Locale date formatting, abstracted: the `toLocaleDateString` call on
`new Date(point.date)` is kept as the raw date string (an Invalid Date
marker when the field is absent); no claim depends on the formatted text. -/
def toLocaleMonthYear : Option String → String
  | some s => s
  | none => "Invalid Date"

/-- A point of the `formattedData` of the second iteration. -/
structure Fmt2 where
  date : String
  volume : Int
deriving DecidableEq, Repr

/-- Per-point normalization of the second iteration (TrendGraph.jsx 136–142):
reformat the date and replace a non-numeric `volume` by `0`. -/
def fmt2 (point : TrendPoint) : Fmt2 :=
  { date := toLocaleMonthYear point.date,
    volume := point.volume.getD 0 }

/-- Second `TrendGraph` iteration (TrendGraph.jsx 112–197): same guard as the
first, chart over the reformatted copy. -/
def trendGraph2 (trendData : TrendData) : Option (List Fmt2) :=
  match trendData with
  | .arr (x :: xs) => some ((x :: xs).map fmt2)
  | _ => none

/-- Third `TrendGraph` iteration (TrendGraph.jsx 212–263): no guard and no
normalization — the raw `trendData` is handed straight to the `LineChart`
(a non-array `data` prop plots no points, but it is the chart that renders,
never a placeholder: the iteration contains no placeholder markup at all). -/
def trendGraph3 (trendData : TrendData) : Option (List TrendPoint) :=
  some
    (match trendData with
     | .arr xs => xs
     | _ => [])

end TrendGraphJsx

namespace Part000

/-- An element of a well-formed `seo_keywords` array: a keyword with its
numeric search volume. -/
structure SeoKw where
  keyword : String
  volume : Int
deriving DecidableEq, Repr

/-- The shape of the backend response this iteration renders
(`brand`/`category`/`condition` scalars plus keyword and trend arrays). -/
structure Result000 where
  brand : Option String
  category : Option String
  condition : Option Int
  seo_keywords : Option (List SeoKw)
  trend_data : TrendData
deriving DecidableEq, Repr

/-- The `useState` cells of the `App` in `src/unnamed/part_000` (it keeps no
object-URL list: previews call `URL.createObjectURL` inline at render). -/
structure State000 where
  selectedFiles : List JsFile
  loading : Bool
  error : Option String
  analysisResult : Option Result000
deriving DecidableEq, Repr

/-- The invalid-file-type error string (part_000 line 208). -/
def invalidFileMsg : String := "Please select valid image files (JPG, PNG, GIF)"

/-- `handleFileSelect` (part_000 199–215): keep only files whose MIME type
starts with `image/`; if none survive set the invalid-type error, otherwise
append the valid files to the selection. -/
def handleFileSelect (st : State000) (files : List JsFile) : State000 :=
  if files.length > 0 then
    let validFiles := files.filter (fun f => f.ftype.startsWith "image/")
    if validFiles.length = 0 then { st with error := some invalidFileMsg }
    else { st with selectedFiles := st.selectedFiles ++ validFiles }
  else st

/-- `handleRemoveImage` (part_000 217–221): filter position `index` out of the
selected-files list.  There is no URL list and no `URL.revokeObjectURL` call,
so the revoked-URL list (second component) is always empty. -/
def handleRemoveImage (st : State000) (index : Nat) : State000 × List ObjUrl :=
  ({ st with selectedFiles := jsFilterIdx (fun i _ => i != index) st.selectedFiles }, [])

/-- The fallback error string of the catch in `handleAnalyze` (part_000 251). -/
def defaultErrMsg : String := "An error occurred during analysis"

/-- `handleAnalyze` (part_000 223–255): guard the empty selection, POST every
selected file under the field `files` to `http://localhost:8000/analyze`,
store the parsed result and clear the selection on success, and on failure
surface `err.message || defaultErrMsg` (the thrown fixed failure string for
a non-ok status, the message of the JSON parser for an unparsable body, the
rejection message for a network failure). -/
def handleAnalyze (st : State000) (out : FetchOutcome Result000) :
    State000 × List Request :=
  if st.selectedFiles.length = 0 then
    ({ st with error := some "Please select at least one image to analyze" }, [])
  else
    let st1 := { st with loading := true, error := none }
    let req : Request :=
      { url := "http://localhost:8000/analyze", method := "POST",
        form := st.selectedFiles.map (fun f => { field := "files", file := f }) }
    match out with
    | .netFail msg =>
        ({ st1 with error := some (jsOrStr msg defaultErrMsg), loading := false }, [req])
    | .resp ok _ parsed parseErrMsg =>
        if ok then
          match parsed with
          | some r =>
              ({ st1 with analysisResult := some r, selectedFiles := [],
                          loading := false }, [req])
          | none =>
              ({ st1 with error := some (jsOrStr parseErrMsg defaultErrMsg),
                          loading := false }, [req])
        else
          ({ st1 with error := some (jsOrStr "Failed to analyze images" defaultErrMsg),
                      loading := false }, [req])

/-- The comparator `(a, b) => b.volume - a.volume` of the keyword sort
(part_000 500): `a` may precede `b` exactly when the comparator is ≤ 0. -/
def seoCmp (a b : SeoKw) : Bool := decide (b.volume ≤ a.volume)

/-- The render expression `[...seo_keywords].sort((a, b) => b.volume - a.volume)`
(part_000 499–500): sort a spread copy in place.  Returns the displayed
sequence together with the array the result object still holds afterwards
(the in-place sort only touched the copy). -/
def renderSeoKeywords (ks : List SeoKw) : List SeoKw × List SeoKw :=
  (List.mergeSort (jsSpread ks) seoCmp, ks)

/-- Chart payload of the inline `TrendGraph` of part_000: a label/value pair
per point. -/
structure Fmt000 where
  date : Option String
  volume : Option Int
deriving DecidableEq, Repr

/-- The inline `TrendGraph` of part_000 (lines 54–104): same emptiness guard
as the guarded iterations, but the chart is fed the raw `d.date` / `d.volume`
values with no numeric normalization. -/
def trendGraph (trendData : TrendData) : Option (List Fmt000) :=
  match trendData with
  | .arr (x :: xs) => some ((x :: xs).map fun d => { date := d.date, volume := d.volume })
  | _ => none

end Part000

namespace Part001

/-- The `useState` cells of the single-image `App` in `src/unnamed/part_001`. -/
structure State001 where
  selectedImage : Option JsFile
  imageUrl : Option ObjUrl
  analysisResult : Option AppJsx.ResultA
  loading : Bool
  error : Option String
deriving DecidableEq, Repr

/-- `analyzeImage(file)` (part_001 162–187): append the single file under the
field `file`, POST to the analyze endpoint, and handle the outcome exactly as
the `analyzeImages` of `App.jsx` does (one fixed error string for every
failure). -/
def analyzeImage (st : State001) (file : JsFile) (out : FetchOutcome AppJsx.ResultA) :
    State001 × List Request :=
  let st1 := { st with loading := true, error := none }
  let req : Request :=
    { url := AppJsx.analyzeUrl, method := "POST",
      form := [{ field := "file", file := file }] }
  match out with
  | .netFail _ =>
      ({ st1 with error := some AppJsx.analyzeErrMsg, loading := false }, [req])
  | .resp ok _ parsed _ =>
      if ok then
        match parsed with
        | some r => ({ st1 with analysisResult := some r, loading := false }, [req])
        | none => ({ st1 with error := some AppJsx.analyzeErrMsg, loading := false }, [req])
      else
        ({ st1 with error := some AppJsx.analyzeErrMsg, loading := false }, [req])

end Part001

namespace Part003

/-- An element of the `seo_keywords` array as part_003 receives it: either
already a plain string or an object with `keyword` and `volume` fields. -/
inductive SeoItem where
  | strKw (s : String)
  | objKw (keyword : String) (volume : Int)
deriving DecidableEq, Repr

/-- `keyword.volume || 0` as the sort comparator reads it: `undefined` on a
plain string coerces to 0. -/
def SeoItem.jsVolume : SeoItem → Int
  | .strKw _ => 0
  | .objKw _ v => v

/-- The response shape part_003 post-processes (remaining fields opaque). -/
structure Result003 where
  trend_data : TrendData
  seo_keywords : Option (List SeoItem)
deriving DecidableEq, Repr

/-- A successfully parsed JSON body: either an object (modelled by
`Result003`) or some non-object JSON value. -/
inductive Parsed003 where
  | toObj (r : Result003)
  | nonObject
deriving DecidableEq, Repr

/-- The post-processing of a parsed result (part_003 277–289): force
`trend_data` to an array (anything that is not an array becomes `[]`) and
flatten each `seo_keywords` object to its `keyword` string. -/
def normalizeResult (r : Result003) : Result003 :=
  { r with
    trend_data :=
      match r.trend_data with
      | .arr xs => .arr xs
      | _ => .arr [],
    seo_keywords :=
      match r.seo_keywords with
      | some ks => some (ks.map fun k =>
          match k with
          | .objKw kw _ => SeoItem.strKw kw
          | .strKw s => SeoItem.strKw s)
      | none => none }

/-- The `useState` cells of the `App` in `src/unnamed/part_003`. -/
structure State003 where
  selectedFiles : List JsFile
  loading : Bool
  error : Option String
  analysisResult : Option Result003
deriving DecidableEq, Repr

/-- The JSON-parse-failure error string (part_003 269). -/
def invalidFormatMsg : String := "Invalid response format from server"

/-- The non-object-response error string (part_003 274). -/
def invalidRespMsg : String := "Invalid response from server"

/-- The fallback error string of the catch (part_003 295). -/
def defaultErrMsg : String := "An error occurred during analysis"

/-- `handleAnalyze` (part_003 233–300): guard the empty selection, POST every
selected file under the field `files` to `` `${API_URL}/analyze` ``, and:
on a non-ok status throw the response body text (with a fixed fallback when
the body is empty), on an unparsable body throw the fixed format message, on a
non-object JSON value throw the fixed invalid-response message, otherwise
store the normalized result.  The catch surfaces `err.message || defaultErrMsg`
and clears the result. -/
def handleAnalyze (st : State003) (apiUrl : String) (out : FetchOutcome Parsed003) :
    State003 × List Request :=
  if st.selectedFiles.length = 0 then
    ({ st with error := some "Please select at least one image to analyze" }, [])
  else
    let st1 := { st with loading := true, error := none, analysisResult := none }
    let req : Request :=
      { url := apiUrl ++ "/analyze", method := "POST",
        form := st.selectedFiles.map (fun f => { field := "files", file := f }) }
    match out with
    | .netFail msg =>
        ({ st1 with error := some (jsOrStr msg defaultErrMsg),
                    analysisResult := none, loading := false }, [req])
    | .resp ok text parsed _ =>
        if ok then
          match parsed with
          | none =>
              ({ st1 with error := some (jsOrStr invalidFormatMsg defaultErrMsg),
                          analysisResult := none, loading := false }, [req])
          | some .nonObject =>
              ({ st1 with error := some (jsOrStr invalidRespMsg defaultErrMsg),
                          analysisResult := none, loading := false }, [req])
          | some (.toObj r) =>
              ({ st1 with analysisResult := some (normalizeResult r),
                          loading := false }, [req])
        else
          ({ st1 with
               error := some (jsOrStr (jsOrStr text "Failed to analyze images") defaultErrMsg),
               analysisResult := none, loading := false }, [req])

/-- The comparator `(a, b) => (b.volume || 0) - (a.volume || 0)` of the
keyword sort (part_003 663). -/
def seoCmp (a b : SeoItem) : Bool := decide (b.jsVolume ≤ a.jsVolume)

/-- The render expression `[...seo_keywords].sort((a, b) => (b.volume || 0) -
(a.volume || 0))` (part_003 662–663): sort a spread copy in place, returning
the displayed sequence and the array the result object still holds. -/
def renderSeoKeywords (ks : List SeoItem) : List SeoItem × List SeoItem :=
  (List.mergeSort (jsSpread ks) seoCmp, ks)

end Part003

/-!
Helper lemmas.  The JavaScript idiom `xs.filter((_, i) => i !== index)` is
shown to remove exactly the element at `index`, and the guarded step function
of `App.jsx` is shown to preserve the state invariants the implicit claims
are about.
-/

theorem filterIdxFrom_high (xs : List α) : ∀ (k m : Nat), m < k →
    filterIdxFrom (fun j _ => j != m) k xs = xs := by
  induction xs with
  | nil => intro k m _; rfl
  | cons x xs ih =>
      intro k m h
      have hne : (k != m) = true := by
        simp only [bne_iff_ne, ne_eq]
        omega
      simp [filterIdxFrom, hne, ih (k + 1) m (Nat.lt_succ_of_lt h)]

theorem filterIdxFrom_ne (xs : List α) : ∀ (k i : Nat),
    filterIdxFrom (fun j _ => j != (k + i)) k xs = xs.take i ++ xs.drop (i + 1) := by
  induction xs with
  | nil => intro k i; simp [filterIdxFrom]
  | cons x xs ih =>
      intro k i
      cases i with
      | zero =>
          have hkk : (k != k + 0) = false := by simp
          simp only [filterIdxFrom, hkk, if_false, List.take_zero, List.drop_succ_cons,
            List.drop_zero, List.nil_append]
          exact filterIdxFrom_high xs (k + 1) (k + 0) (by omega)
      | succ n =>
          have hkn : (k != k + (n + 1)) = true := by
            simp only [bne_iff_ne, ne_eq]
            omega
          simp only [filterIdxFrom, hkn, if_true, List.take_succ_cons, List.drop_succ_cons,
            List.cons_append]
          have e : k + (n + 1) = (k + 1) + n := by omega
          rw [e, ih (k + 1) n]

theorem jsFilterIdx_ne (xs : List α) (i : Nat) :
    jsFilterIdx (fun j _ => j != i) xs = xs.take i ++ xs.drop (i + 1) := by
  have h := filterIdxFrom_ne xs 0 i
  simpa [jsFilterIdx] using h

theorem removeAt_map (f : α → β) (xs : List α) (i : Nat) :
    (xs.map f).take i ++ (xs.map f).drop (i + 1) = (xs.take i ++ xs.drop (i + 1)).map f := by
  simp [List.map_append, List.map_take, List.map_drop]

theorem removeAt_length (xs : List α) (i : Nat) (h : i < xs.length) :
    (xs.take i ++ xs.drop (i + 1)).length = xs.length - 1 := by
  simp only [List.length_append, List.length_take, List.length_drop]
  omega

namespace AppJsx

/-- The correspondence invariant of the two lists of `App.jsx`: the URL list
is pointwise the object URL created for the file at the same position. -/
def UrlInv (st : AppState) : Prop :=
  st.imageUrls = st.selectedImages.map createObjectURL

/-- The index safety invariant: `currentImageIndex` is within the URL list
whenever that list is non-empty (and pinned to 0 when it is empty). -/
def IdxInv (st : AppState) : Prop :=
  st.currentImageIndex < max 1 st.imageUrls.length

/-- The combined state invariant of the `App.jsx` component. -/
def StInv (st : AppState) : Prop := UrlInv st ∧ IdxInv st

theorem step_urlInv (st : AppState) (ev : Ev) (h : UrlInv st) :
    UrlInv (stepFn st ev).state := by
  cases ev with
  | imageChange files =>
      by_cases hf : files.length > 0 <;>
        simp_all [stepFn, handleImageChange, UrlInv, List.map_append]
  | removeImage i =>
      simp only [stepFn, handleRemoveImage, UrlInv] at h ⊢
      rw [h, jsFilterIdx_ne, jsFilterIdx_ne, removeAt_map]
  | analyze out =>
      by_cases hlen : st.selectedImages.length = 0
      · simp_all [stepFn, handleAnalyzeImages, UrlInv]
      · cases out with
        | netFail m =>
            simp_all [stepFn, handleAnalyzeImages, analyzeImages, UrlInv]
        | resp ok text parsed perr =>
            cases ok <;> cases parsed <;>
              simp_all [stepFn, handleAnalyzeImages, analyzeImages, UrlInv]
  | cameraStart out =>
      cases out <;> simp_all [stepFn, startCamera, UrlInv]
  | cameraStop => simp_all [stepFn, stopCamera, UrlInv]
  | capture out f =>
      cases out <;> simp_all [stepFn, captureImage, stopCamera, UrlInv, List.map_append]
  | nextImage => simp_all [stepFn, handleNextImage, UrlInv]
  | prevImage => simp_all [stepFn, handlePrevImage, UrlInv]

theorem step_idxInv (st : AppState) (ev : Ev) (hg : evGuard st ev) (h : StInv st) :
    IdxInv (stepFn st ev).state := by
  obtain ⟨hUrl, hIdx⟩ := h
  have hlen : st.imageUrls.length = st.selectedImages.length := by
    rw [hUrl]; simp
  cases ev with
  | imageChange files =>
      by_cases hf : files.length > 0 <;>
        simp_all [stepFn, handleImageChange, IdxInv] <;> try omega
  | removeImage i =>
      simp only [stepFn, handleRemoveImage, IdxInv] at hIdx ⊢
      rw [jsFilterIdx_ne, jsFilterIdx_ne]
      simp only [List.length_append, List.length_take, List.length_drop]
      split <;> omega
  | analyze out =>
      by_cases hl : st.selectedImages.length = 0
      · simp_all [stepFn, handleAnalyzeImages, IdxInv]
      · cases out with
        | netFail m =>
            simp_all [stepFn, handleAnalyzeImages, analyzeImages, IdxInv]
        | resp ok text parsed perr =>
            cases ok <;> cases parsed <;>
              simp_all [stepFn, handleAnalyzeImages, analyzeImages, IdxInv]
  | cameraStart out =>
      cases out <;> simp_all [stepFn, startCamera, IdxInv]
  | cameraStop => simp_all [stepFn, stopCamera, IdxInv]
  | capture out f =>
      cases out <;> simp_all [stepFn, captureImage, stopCamera, IdxInv] <;> try omega
  | nextImage =>
      have hg1 : 1 < st.imageUrls.length := hg
      have hmod : (st.currentImageIndex + 1) % st.imageUrls.length < st.imageUrls.length :=
        Nat.mod_lt _ (by omega)
      simp only [stepFn, handleNextImage, IdxInv]
      omega
  | prevImage =>
      have hg1 : 1 < st.imageUrls.length := hg
      have hmod : (st.currentImageIndex + st.imageUrls.length - 1) % st.imageUrls.length
          < st.imageUrls.length := Nat.mod_lt _ (by omega)
      simp only [stepFn, handlePrevImage, IdxInv]
      omega

theorem reachable_inv {st : AppState} (h : Reachable st) : StInv st := by
  induction h with
  | init => exact ⟨rfl, by simp [IdxInv, initState]⟩
  | step ev _ hg ih => exact ⟨step_urlInv _ ev ih.1, step_idxInv _ ev hg ih⟩

end AppJsx

/-- C2: every invocation of the analyze operation with a non-empty selection
issues a POST of a multipart body holding exactly the selected files, each
under the field name `files` (`App.jsx`) or as a single entry under the field
name `file` (part_001), with no other fields, to the `/analyze` endpoint. -/
theorem c2_analyze_request_form :
    (∀ (st : AppJsx.AppState) (files : List JsFile) (out : FetchOutcome AppJsx.ResultA),
       files ≠ [] →
       (AppJsx.analyzeImages st files out).2 =
         [{ url := AppJsx.analyzeUrl, method := "POST",
            form := files.map (fun f => { field := "files", file := f }) }]) ∧
    (∀ (st : Part001.State001) (f : JsFile) (out : FetchOutcome AppJsx.ResultA),
       (Part001.analyzeImage st f out).2 =
         [{ url := AppJsx.analyzeUrl, method := "POST",
            form := [{ field := "file", file := f }] }]) ∧
    AppJsx.analyzeUrl = "https://grail-meter-production.up.railway.app" ++ "/analyze" := by
  refine ⟨?_, ?_, rfl⟩
  · intro st files out _
    cases out with
    | netFail m => rfl
    | resp ok text parsed perr => cases ok <;> cases parsed <;> rfl
  · intro st f out
    cases out with
    | netFail m => rfl
    | resp ok text parsed perr => cases ok <;> cases parsed <;> rfl

/-- Witness for C2 at a concrete one-file selection. -/
theorem c2_analyze_request_form_witness :
    ([{ id := 1, ftype := "image/jpeg" }] : List JsFile) ≠ [] ∧
    (AppJsx.analyzeImages AppJsx.initState [{ id := 1, ftype := "image/jpeg" }]
        (.netFail "")).2 =
      [{ url := AppJsx.analyzeUrl, method := "POST",
         form := [{ field := "files", file := { id := 1, ftype := "image/jpeg" } }] }] :=
  ⟨by decide,
   c2_analyze_request_form.1 AppJsx.initState [{ id := 1, ftype := "image/jpeg" }]
     (.netFail "") (by decide)⟩

/-- C3: in both keyword-panel iterations the displayed keyword sequence is
sorted by non-increasing volume, is a permutation of the `seo_keywords` array
of the result, and the array held in the result object is unchanged by the
render (the in-place sort hits only the spread copy). -/
theorem c3_seo_keywords_sorted :
    (∀ ks : List Part000.SeoKw,
       List.Pairwise (fun a b => b.volume ≤ a.volume) (Part000.renderSeoKeywords ks).1 ∧
       ((Part000.renderSeoKeywords ks).1).Perm ks ∧
       (Part000.renderSeoKeywords ks).2 = ks) ∧
    (∀ ks : List Part003.SeoItem,
       List.Pairwise (fun a b => b.jsVolume ≤ a.jsVolume) (Part003.renderSeoKeywords ks).1 ∧
       ((Part003.renderSeoKeywords ks).1).Perm ks ∧
       (Part003.renderSeoKeywords ks).2 = ks) := by
  constructor
  · intro ks
    refine ⟨?_, List.mergeSort_perm ks Part000.seoCmp, rfl⟩
    have h := @List.sorted_mergeSort _ Part000.seoCmp
      (fun a b c hab hbc => by
        simp only [Part000.seoCmp, decide_eq_true_eq] at hab hbc ⊢
        omega)
      (fun a b => by
        simp only [Part000.seoCmp, Bool.or_eq_true, decide_eq_true_eq]
        omega)
      ks
    exact h.imp (fun hab => by
      simpa [Part000.seoCmp, decide_eq_true_eq] using hab)
  · intro ks
    refine ⟨?_, List.mergeSort_perm ks Part003.seoCmp, rfl⟩
    have h := @List.sorted_mergeSort _ Part003.seoCmp
      (fun a b c hab hbc => by
        simp only [Part003.seoCmp, decide_eq_true_eq] at hab hbc ⊢
        omega)
      (fun a b => by
        simp only [Part003.seoCmp, Bool.or_eq_true, decide_eq_true_eq]
        omega)
      ks
    exact h.imp (fun hab => by
      simpa [Part003.seoCmp, decide_eq_true_eq] using hab)

/-- C7: one analysis action issues exactly one network request when the
selection is non-empty and none when it is empty; in particular there is
never a retry and never more than one request per action. -/
theorem c7_single_request :
    (∀ (st : AppJsx.AppState) (out : FetchOutcome AppJsx.ResultA),
       (AppJsx.handleAnalyzeImages st out).2.length =
         if st.selectedImages.length = 0 then 0 else 1) ∧
    (∀ (st : Part003.State003) (apiUrl : String) (out : FetchOutcome Part003.Parsed003),
       (Part003.handleAnalyze st apiUrl out).2.length =
         if st.selectedFiles.length = 0 then 0 else 1) := by
  constructor
  · intro st out
    by_cases h : st.selectedImages.length = 0
    · simp [AppJsx.handleAnalyzeImages, h]
    · cases out with
      | netFail m => simp [AppJsx.handleAnalyzeImages, AppJsx.analyzeImages, h]
      | resp ok text parsed perr =>
          cases ok <;> cases parsed <;>
            simp [AppJsx.handleAnalyzeImages, AppJsx.analyzeImages, h]
  · intro st apiUrl out
    by_cases h : st.selectedFiles.length = 0
    · simp [Part003.handleAnalyze, h]
    · cases out with
      | netFail m => simp [Part003.handleAnalyze, h]
      | resp ok text parsed perr =>
          rcases parsed with _ | p
          · cases ok <;> simp [Part003.handleAnalyze, h]
          · cases p <;> cases ok <;> simp [Part003.handleAnalyze, h]

/-- C10: invoking the analyze handler on an empty selection sets exactly the
empty-selection error, issues no network request, and leaves every other
state cell (selection, previews, loading flag, previous result) unchanged. -/
theorem c10_empty_selection_atomic :
    (∀ (st : AppJsx.AppState) (out : FetchOutcome AppJsx.ResultA),
       st.selectedImages.length = 0 →
       AppJsx.handleAnalyzeImages st out =
         ({ st with error := some AppJsx.emptySelMsg }, [])) ∧
    (∀ (st : Part000.State000) (out : FetchOutcome Part000.Result000),
       st.selectedFiles.length = 0 →
       Part000.handleAnalyze st out =
         ({ st with error := some "Please select at least one image to analyze" }, [])) := by
  constructor
  · intro st out h
    simp [AppJsx.handleAnalyzeImages, h]
  · intro st out h
    simp [Part000.handleAnalyze, h]

/-- Witness for C10 at the empty initial states. -/
theorem c10_empty_selection_atomic_witness :
    AppJsx.initState.selectedImages.length = 0 ∧
    AppJsx.handleAnalyzeImages AppJsx.initState (.netFail "") =
      ({ AppJsx.initState with error := some AppJsx.emptySelMsg }, []) ∧
    Part000.handleAnalyze
      { selectedFiles := [], loading := false, error := none, analysisResult := none }
      (.netFail "") =
      ({ selectedFiles := [], loading := false,
         error := some "Please select at least one image to analyze",
         analysisResult := none }, []) :=
  ⟨rfl, c10_empty_selection_atomic.1 AppJsx.initState (.netFail "") rfl,
   c10_empty_selection_atomic.2
     { selectedFiles := [], loading := false, error := none, analysisResult := none }
     (.netFail "") rfl⟩

theorem jsOrStr_absorb (a b c : String) (hb : b ≠ "") :
    jsOrStr (jsOrStr a b) c = jsOrStr a b := by
  unfold jsOrStr
  by_cases ha : a = "" <;> simp [ha, hb]

/-- C1 counterexample: in part_003 a non-2xx response is surfaced as the
response body text, so two failing responses with different bodies produce
two different user-facing error strings — not a single fixed string
independent of the response contents. -/
theorem c1_part003_error_not_fixed :
    (Part003.handleAnalyze
        { selectedFiles := [{ id := 1, ftype := "image/jpeg" }], loading := false,
          error := none, analysisResult := none }
        "http://localhost:8000"
        (.resp false "boom" none "")).1.error = some "boom" ∧
    (Part003.handleAnalyze
        { selectedFiles := [{ id := 1, ftype := "image/jpeg" }], loading := false,
          error := none, analysisResult := none }
        "http://localhost:8000"
        (.resp false "bang" none "")).1.error = some "bang" ∧
    ("boom" : String) ≠ "bang" := by
  refine ⟨?_, ?_, by decide⟩ <;> rfl

/-- C1 amended: in `App.jsx` every non-2xx response and every unparsable body
yields the one fixed message and leaves the stored result untouched; in
part_003 the result is cleared and the message is the response body text for
a non-2xx status (with a fixed fallback for an empty body) and a fixed
format-error string for an unparsable body. -/
theorem c1_amended_error_surface :
    (∀ (st : AppJsx.AppState) (files : List JsFile) (ok : Bool) (text : String)
       (parsed : Option AppJsx.ResultA) (perr : String),
       ok = false ∨ parsed = none →
       (AppJsx.analyzeImages st files (.resp ok text parsed perr)).1.error
           = some AppJsx.analyzeErrMsg ∧
       (AppJsx.analyzeImages st files (.resp ok text parsed perr)).1.analysisResult
           = st.analysisResult) ∧
    (∀ (st : Part003.State003) (apiUrl text : String)
       (parsed : Option Part003.Parsed003) (perr : String),
       st.selectedFiles.length ≠ 0 →
       (Part003.handleAnalyze st apiUrl (.resp false text parsed perr)).1.error
           = some (jsOrStr text "Failed to analyze images") ∧
       (Part003.handleAnalyze st apiUrl
           (.resp false text parsed perr)).1.analysisResult = none) ∧
    (∀ (st : Part003.State003) (apiUrl text perr : String),
       st.selectedFiles.length ≠ 0 →
       (Part003.handleAnalyze st apiUrl (.resp true text none perr)).1.error
           = some Part003.invalidFormatMsg ∧
       (Part003.handleAnalyze st apiUrl
           (.resp true text none perr)).1.analysisResult = none) := by
  refine ⟨?_, ?_, ?_⟩
  · intro st files ok text parsed perr h
    rcases h with h | h
    · subst h
      cases parsed <;> simp [AppJsx.analyzeImages]
    · subst h
      cases ok <;> simp [AppJsx.analyzeImages]
  · intro st apiUrl text parsed perr h
    simp [Part003.handleAnalyze, h, jsOrStr_absorb text "Failed to analyze images"
      Part003.defaultErrMsg (by decide)]
  · intro st apiUrl text perr h
    have : jsOrStr Part003.invalidFormatMsg Part003.defaultErrMsg
        = Part003.invalidFormatMsg := by decide
    simp [Part003.handleAnalyze, h, this]

/-- Witness for C1 amended at concrete failing responses. -/
theorem c1_amended_error_surface_witness :
    ((false = false ∨ (none : Option AppJsx.ResultA) = none) ∧
      (AppJsx.analyzeImages AppJsx.initState [{ id := 2, ftype := "image/png" }]
          (.resp false "oops" none "")).1.error = some AppJsx.analyzeErrMsg) ∧
    (({ selectedFiles := [{ id := 1, ftype := "image/jpeg" }], loading := false,
        error := none, analysisResult := none } : Part003.State003).selectedFiles.length
          ≠ 0 ∧
      (Part003.handleAnalyze
          { selectedFiles := [{ id := 1, ftype := "image/jpeg" }], loading := false,
            error := none, analysisResult := none }
          "u" (.resp false "srv" none "")).1.error
        = some (jsOrStr "srv" "Failed to analyze images")) ∧
    (Part003.handleAnalyze
        { selectedFiles := [{ id := 1, ftype := "image/jpeg" }], loading := false,
          error := none, analysisResult := none }
        "u" (.resp true "notjson" none "syntax")).1.error
      = some Part003.invalidFormatMsg :=
  ⟨⟨Or.inl rfl,
    (c1_amended_error_surface.1 AppJsx.initState [{ id := 2, ftype := "image/png" }]
      false "oops" none "" (Or.inl rfl)).1⟩,
   ⟨by decide,
    (c1_amended_error_surface.2.1
      { selectedFiles := [{ id := 1, ftype := "image/jpeg" }], loading := false,
        error := none, analysisResult := none } "u" "srv" none "" (by decide)).1⟩,
   (c1_amended_error_surface.2.2
      { selectedFiles := [{ id := 1, ftype := "image/jpeg" }], loading := false,
        error := none, analysisResult := none } "u" "notjson" "syntax" (by decide)).1⟩

/-- C4 counterexample: the third `TrendGraph` iteration renders the chart on
the empty array — it never renders the placeholder. -/
theorem c4_trendGraph3_no_guard :
    TrendGraphJsx.trendGraph3 (TrendData.arr []) = some [] ∧
    TrendGraphJsx.trendGraph3 (TrendData.arr []) ≠ none :=
  ⟨rfl, by simp [TrendGraphJsx.trendGraph3]⟩

/-- C4 amended: the first and second `TrendGraph` iterations (and the inline
one of part_000) render the placeholder exactly on null, undefined, non-array
or empty input and otherwise the chart over their per-point transforms (the
first falling back from a non-numeric `interest` to the numeric `volume` and
then to 0, the second zeroing a non-numeric `volume`, the part_000 one
passing the raw values through); the third iteration renders the chart
unconditionally and has no placeholder at all. -/
theorem c4_amended_trend_render :
    (∀ td : TrendData, TrendGraphJsx.trendGraph1 td = none ↔ td.isEmptyish = true) ∧
    (∀ (x : TrendPoint) (xs : List TrendPoint),
       TrendGraphJsx.trendGraph1 (TrendData.arr (x :: xs))
         = some ((x :: xs).map TrendGraphJsx.fmt1)) ∧
    (∀ td : TrendData, TrendGraphJsx.trendGraph2 td = none ↔ td.isEmptyish = true) ∧
    (∀ (x : TrendPoint) (xs : List TrendPoint),
       TrendGraphJsx.trendGraph2 (TrendData.arr (x :: xs))
         = some ((x :: xs).map TrendGraphJsx.fmt2)) ∧
    (∀ td : TrendData, Part000.trendGraph td = none ↔ td.isEmptyish = true) ∧
    (∀ td : TrendData, TrendGraphJsx.trendGraph3 td ≠ none) := by
  refine ⟨?_, fun x xs => rfl, ?_, fun x xs => rfl, ?_, ?_⟩
  · intro td
    rcases td with _ | _ | _ | (_ | ⟨x, xs⟩) <;>
      simp [TrendGraphJsx.trendGraph1, TrendData.isEmptyish]
  · intro td
    rcases td with _ | _ | _ | (_ | ⟨x, xs⟩) <;>
      simp [TrendGraphJsx.trendGraph2, TrendData.isEmptyish]
  · intro td
    rcases td with _ | _ | _ | (_ | ⟨x, xs⟩) <;>
      simp [Part000.trendGraph, TrendData.isEmptyish]
  · intro td
    rcases td with _ | _ | _ | (_ | ⟨x, xs⟩) <;>
      simp [TrendGraphJsx.trendGraph3]

namespace AppJsx

/-- The fixed user-visible error strings the `App.jsx` handlers can set. -/
def errorStrings : List String :=
  [emptySelMsg, analyzeErrMsg, camErrMsg, captureErrMsg]

end AppJsx

/-- C5 counterexample: a reachable error state whose string was set by a
camera-access failure — a cause that is neither an invalid file type, a
network/HTTP failure nor a malformed JSON response, and whose string differs
from every string those three causes produce in the embedded code. -/
theorem c5_camera_error_fourth_cause :
    AppJsx.Reachable (AppJsx.stepFn AppJsx.initState (.cameraStart .fail)).state ∧
    (AppJsx.stepFn AppJsx.initState (.cameraStart .fail)).state.error
        = some AppJsx.camErrMsg ∧
    AppJsx.camErrMsg ∉ [Part000.invalidFileMsg, AppJsx.analyzeErrMsg,
      AppJsx.analyzeCatchMsg, Part003.invalidFormatMsg, Part003.invalidRespMsg] :=
  ⟨AppJsx.Reachable.step _ AppJsx.Reachable.init trivial, rfl, by decide⟩

/-- C5 amended: every error string a handler of the embedded `App.jsx`
component sets is one of four fixed strings — empty selection, analyze
failure (network/HTTP failure and malformed JSON share one string),
camera-access failure, capture failure — and the part_000 file-select handler
sets only its fixed invalid-file-type string; the three causes of the claim
are not exhaustive. -/
theorem c5_amended_error_causes :
    (∀ (st : AppJsx.AppState) (ev : AppJsx.Ev) (s : String),
       (AppJsx.stepFn st ev).state.error = some s →
       st.error = some s ∨ s ∈ AppJsx.errorStrings) ∧
    (∀ (st : Part000.State000) (files : List JsFile) (s : String),
       (Part000.handleFileSelect st files).error = some s →
       st.error = some s ∨ s = Part000.invalidFileMsg) := by
  constructor
  · intro st ev s h
    cases ev with
    | imageChange files =>
        left
        by_cases hf : files.length > 0 <;>
          simp_all [AppJsx.stepFn, AppJsx.handleImageChange]
    | removeImage i =>
        left
        simp_all [AppJsx.stepFn, AppJsx.handleRemoveImage]
    | analyze out =>
        by_cases hl : st.selectedImages.length = 0
        · simp_all [AppJsx.stepFn, AppJsx.handleAnalyzeImages, AppJsx.errorStrings]
        · cases out with
          | netFail m =>
              simp_all [AppJsx.stepFn, AppJsx.handleAnalyzeImages, AppJsx.analyzeImages,
                AppJsx.errorStrings]
          | resp ok text parsed perr =>
              cases ok <;> cases parsed <;>
                simp_all [AppJsx.stepFn, AppJsx.handleAnalyzeImages, AppJsx.analyzeImages,
                  AppJsx.errorStrings]
    | cameraStart out =>
        cases out <;>
          simp_all [AppJsx.stepFn, AppJsx.startCamera, AppJsx.errorStrings]
    | cameraStop =>
        left
        simp_all [AppJsx.stepFn, AppJsx.stopCamera]
    | capture out f =>
        cases out <;>
          simp_all [AppJsx.stepFn, AppJsx.captureImage, AppJsx.stopCamera,
            AppJsx.errorStrings]
    | nextImage =>
        left
        simp_all [AppJsx.stepFn, AppJsx.handleNextImage]
    | prevImage =>
        left
        simp_all [AppJsx.stepFn, AppJsx.handlePrevImage]
  · intro st files s h
    by_cases hf : files.length > 0
    · by_cases hv : (files.filter (fun f => f.ftype.startsWith "image/")).length = 0 <;>
        simp_all [Part000.handleFileSelect]
    · simp_all [Part000.handleFileSelect]

/-- Witness for C5 amended at a concrete camera failure and a state with a
previously set error. -/
theorem c5_amended_error_causes_witness :
    ((AppJsx.stepFn AppJsx.initState (.cameraStart .fail)).state.error
        = some AppJsx.camErrMsg ∧
      (AppJsx.initState.error = some AppJsx.camErrMsg ∨
        AppJsx.camErrMsg ∈ AppJsx.errorStrings)) ∧
    ((Part000.handleFileSelect
        { selectedFiles := [], loading := false, error := some "previous",
          analysisResult := none } []).error = some "previous" ∧
      (({ selectedFiles := [], loading := false, error := some "previous",
          analysisResult := none } : Part000.State000).error = some "previous" ∨
        ("previous" : String) = Part000.invalidFileMsg)) :=
  ⟨⟨rfl, c5_amended_error_causes.1 AppJsx.initState (.cameraStart .fail)
      AppJsx.camErrMsg rfl⟩,
   ⟨rfl, c5_amended_error_causes.2
      { selectedFiles := [], loading := false, error := some "previous",
        analysisResult := none } [] "previous" rfl⟩⟩

/-- C6 counterexample: the part_000 variant of `handleRemoveImage` revokes no
object URL at all — removing the only image revokes nothing, while the claim
requires exactly the URL at the removed position to be revoked. -/
theorem c6_part000_no_revocation :
    (Part000.handleRemoveImage
        { selectedFiles := [{ id := 7, ftype := "image/jpeg" }], loading := false,
          error := none, analysisResult := none } 0).2 = [] ∧
    ([] : List ObjUrl) ≠ [createObjectURL { id := 7, ftype := "image/jpeg" }] :=
  ⟨rfl, by decide⟩

/-- C6 amended: in `App.jsx`, `handleRemoveImage i` (for `i` inside the
preview list) removes exactly position `i` from both lists, keeping every
other element in order, and revokes exactly the object URL at position `i`;
the part_000 variant removes position `i` from its selected-files list but
keeps no URL list and revokes nothing. -/
theorem c6_amended_remove_image :
    (∀ (st : AppJsx.AppState) (i : Nat) (h : i < st.imageUrls.length),
       (AppJsx.handleRemoveImage st i).1.selectedImages
           = st.selectedImages.take i ++ st.selectedImages.drop (i + 1) ∧
       (AppJsx.handleRemoveImage st i).1.imageUrls
           = st.imageUrls.take i ++ st.imageUrls.drop (i + 1) ∧
       (AppJsx.handleRemoveImage st i).2 = [st.imageUrls.get ⟨i, h⟩]) ∧
    (∀ (st : Part000.State000) (i : Nat),
       (Part000.handleRemoveImage st i).1.selectedFiles
           = st.selectedFiles.take i ++ st.selectedFiles.drop (i + 1) ∧
       (Part000.handleRemoveImage st i).2 = []) := by
  constructor
  · intro st i h
    refine ⟨?_, ?_, ?_⟩
    · simp [AppJsx.handleRemoveImage, jsFilterIdx_ne]
    · simp [AppJsx.handleRemoveImage, jsFilterIdx_ne]
    · simp [AppJsx.handleRemoveImage, List.getElem?_eq_getElem h]
  · intro st i
    exact ⟨by simp [Part000.handleRemoveImage, jsFilterIdx_ne], rfl⟩

/-- Witness for C6 amended at a concrete single-image state. -/
theorem c6_amended_remove_image_witness :
    (0 < ({ selectedImages := [{ id := 4, ftype := "image/png" }],
            imageUrls := [createObjectURL { id := 4, ftype := "image/png" }],
            currentImageIndex := 0, loading := false, error := none,
            analysisResult := none, showCamera := false } : AppJsx.AppState
          ).imageUrls.length) ∧
    (AppJsx.handleRemoveImage
        { selectedImages := [{ id := 4, ftype := "image/png" }],
          imageUrls := [createObjectURL { id := 4, ftype := "image/png" }],
          currentImageIndex := 0, loading := false, error := none,
          analysisResult := none, showCamera := false } 0).2
      = [createObjectURL { id := 4, ftype := "image/png" }] ∧
    (Part000.handleRemoveImage
        { selectedFiles := [{ id := 4, ftype := "image/png" }], loading := false,
          error := none, analysisResult := none } 0).2 = [] :=
  ⟨by decide,
   (c6_amended_remove_image.1
      { selectedImages := [{ id := 4, ftype := "image/png" }],
        imageUrls := [createObjectURL { id := 4, ftype := "image/png" }],
        currentImageIndex := 0, loading := false, error := none,
        analysisResult := none, showCamera := false } 0 (by decide)).2.2,
   (c6_amended_remove_image.2
      { selectedFiles := [{ id := 4, ftype := "image/png" }], loading := false,
        error := none, analysisResult := none } 0).2⟩

/-- C8: every handler of the `App.jsx` component (in particular
`handleImageChange`, `captureImage` and `handleRemoveImage`) preserves the
correspondence between the two lists — the URL list is pointwise the object
URL created for the file at the same position, so the lists always have equal
length. -/
theorem c8_url_correspondence_preserved (st : AppJsx.AppState) (ev : AppJsx.Ev)
    (h : st.imageUrls = st.selectedImages.map createObjectURL) :
    (AppJsx.stepFn st ev).state.imageUrls
      = (AppJsx.stepFn st ev).state.selectedImages.map createObjectURL :=
  AppJsx.step_urlInv st ev h

/-- Witness for C8 at the initial state and one file selection. -/
theorem c8_url_correspondence_preserved_witness :
    AppJsx.initState.imageUrls = AppJsx.initState.selectedImages.map createObjectURL ∧
    (AppJsx.stepFn AppJsx.initState
        (.imageChange [{ id := 9, ftype := "image/gif" }])).state.imageUrls
      = (AppJsx.stepFn AppJsx.initState
          (.imageChange [{ id := 9, ftype := "image/gif" }])).state.selectedImages.map
          createObjectURL :=
  ⟨rfl, c8_url_correspondence_preserved AppJsx.initState
    (.imageChange [{ id := 9, ftype := "image/gif" }]) rfl⟩

/-- C9: in every reachable state of the `App.jsx` component with a non-empty
preview-URL list, `currentImageIndex` is strictly below the list length, so
the results-view lookup `imageUrls[currentImageIndex]` is in bounds. -/
theorem c9_current_index_in_bounds (st : AppJsx.AppState) (h : AppJsx.Reachable st)
    (hne : st.imageUrls ≠ []) :
    st.currentImageIndex < st.imageUrls.length := by
  have hi := (AppJsx.reachable_inv h).2
  have hlen : st.imageUrls.length ≠ 0 := by
    simpa [List.length_eq_zero] using hne
  unfold AppJsx.IdxInv at hi
  omega

/-- Witness for C9 at the reachable state holding one selected image. -/
theorem c9_current_index_in_bounds_witness :
    AppJsx.Reachable
      (AppJsx.stepFn AppJsx.initState
        (.imageChange [{ id := 5, ftype := "image/png" }])).state ∧
    (AppJsx.stepFn AppJsx.initState
        (.imageChange [{ id := 5, ftype := "image/png" }])).state.imageUrls ≠ [] ∧
    (AppJsx.stepFn AppJsx.initState
        (.imageChange [{ id := 5, ftype := "image/png" }])).state.currentImageIndex
      < (AppJsx.stepFn AppJsx.initState
          (.imageChange [{ id := 5, ftype := "image/png" }])).state.imageUrls.length :=
  ⟨AppJsx.Reachable.step _ AppJsx.Reachable.init trivial,
   by decide,
   c9_current_index_in_bounds _
     (AppJsx.Reachable.step _ AppJsx.Reachable.init trivial) (by decide)⟩
